import Mathlib

/-
  Verification of the lead-intake application (src/main.py) against its
  natural-language specification.

  The embedding is shallow: each FastAPI handler becomes a Lean function on
  an explicit database state, the SQLAlchemy `Lead` table becomes a Lean
  structure, and the SQLite store becomes a list of rows with an explicit
  monotone id counter.  Timestamps are abstracted as naturals supplied by
  the caller (`now`), matching `datetime.utcnow` being read at insert time.
-/

set_option autoImplicit false

namespace LeadIntake

/--
The `Lead` row (src/main.py, class `Lead`): columns `id` (integer primary
key), `created_at` (timestamp, default now), `source` (default "web"),
`name`, `email`, `message` (all non-null strings).

The fields `paid`, `stripe_session_id` and `paid_at` are Modelled from the
spec: they belong to the paid-flow variant of the application, whose source
file is not under src/ (spec §3: `paid` boolean defaulting false,
`stripe_session_id` optional string unique across rows when present,
`paid_at` optional timestamp).  In the free variant under src/ every row
has `paid = false` and `stripe_session_id = none`.
-/
structure Lead where
  id : Nat
  created_at : Nat
  source : String
  name : String
  email : String
  message : String
  paid : Bool
  stripe_session_id : Option String
  paid_at : Option Nat
  deriving DecidableEq, Repr

/-- The persistent store: the single `leads` table, rows in insertion order. -/
structure DB where
  leads : List Lead
  deriving DecidableEq, Repr

/-- Largest id present in the table (0 when empty); SQLite assigns the next
integer primary key as `max existing id + 1`. -/
def maxId (ls : List Lead) : Nat :=
  ls.foldr (fun l m => max l.id m) 0

/-- Row insertion as performed by the store: the new row receives the next
monotone primary key and is appended to the table. -/
def DB.insertRow (db : DB) (now : Nat) (name email message source : String)
    (paid : Bool) (sid : Option String) (paidAt : Option Nat) : DB × Lead :=
  let row : Lead := ⟨maxId db.leads + 1, now, source, name, email, message, paid, sid, paidAt⟩
  (⟨db.leads ++ [row]⟩, row)

/-- Whether some stored row already carries the given payment-session id. -/
def sessionUsed (ls : List Lead) (sid : String) : Bool :=
  ls.any (fun l => l.stripe_session_id = some sid)

/-- The stored rows carrying a given payment-session id. -/
def leadsWithSession (ls : List Lead) (sid : String) : List Lead :=
  ls.filter (fun l => l.stripe_session_id = some sid)

/-- Conflict raised by the store's uniqueness constraint. -/
inductive InsertError
  | conflict
  deriving DecidableEq, Repr

/--
Modelled from the spec: the paid-flow insert with the store-level unique
constraint on `stripe_session_id` (spec §3, §4.1: the store "must reject
insertion when `stripe_session_id` collides with an existing row" and the
final paid submit "inserts with `source=web_paid`, `paid=true`,
`paid_at=now`").  The paid-variant source file is not under src/.
-/
def DB.insertPaid (db : DB) (now : Nat) (name email message : String)
    (sid : String) : Except InsertError (DB × Lead) :=
  if sessionUsed db.leads sid then .error .conflict
  else .ok (db.insertRow now name email message "web_paid" true (some sid) (some now))

/-- A character removed by Python's `str.strip()` (the ASCII whitespace
characters; non-ASCII Unicode whitespace does not occur in this system's
inputs and is abstracted away). -/
def pyWhitespace (c : Char) : Bool :=
  c = ' ' || c = '\t' || c = '\n' || c = '\r' || c = '\x0b' || c = '\x0c'

/-- Python's `str.strip()`: remove leading and trailing whitespace. -/
def pyStrip (s : String) : String :=
  ⟨((s.data.dropWhile pyWhitespace).reverse.dropWhile pyWhitespace).reverse⟩

/-- The three `HTTPException(status_code=400, ...)` cases of `submit_lead_api`. -/
inductive SubmitError
  | invalidSubmission
  | nameTooShort
  | messageTooShort
  deriving DecidableEq, Repr

/-- HTTP status code attached to each submission error (all are 400). -/
def SubmitError.status : SubmitError → Nat
  | _ => 400

/-- Human-readable `detail` string of each submission error. -/
def SubmitError.detail : SubmitError → String
  | .invalidSubmission => "Invalid submission"
  | .nameTooShort => "Name too short"
  | .messageTooShort => "Message too short"

/-- The JSON success body of POST /submit: `{"saved": true, "id": N}`. -/
structure SubmitOk where
  saved : Bool
  id : Nat
  deriving DecidableEq, Repr

/--
POST /submit (src/main.py, `submit_lead_api`): honeypot check (`if website:`
is true exactly when the parameter is present and non-empty), then name and
message length checks on the stripped strings, then insertion of the row
with the stripped values and `source="web"`.  Returns the resulting store
and either a 400 error or the success body.
-/
def submit_lead_api (now : Nat) (name email message : String)
    (website : Option String) (db : DB) : DB × Except SubmitError SubmitOk :=
  if website.getD "" ≠ "" then
    (db, .error .invalidSubmission)
  else if (pyStrip name).length < 2 then
    (db, .error .nameTooShort)
  else if (pyStrip message).length < 10 then
    (db, .error .messageTooShort)
  else
    let r := db.insertRow now (pyStrip name) (pyStrip email) (pyStrip message) "web" false none none
    (r.1, .ok ⟨true, r.2.id⟩)

/--
POST /submit-form (src/main.py, `submit_lead_form`): reuses
`submit_lead_api` (an error raised there propagates), on success responds
with a 303 redirect to /thanks.
-/
def submit_lead_form (now : Nat) (name email message website : String)
    (db : DB) : DB × Except SubmitError Nat :=
  match submit_lead_api now name email message (some website) db with
  | (db1, .ok _) => (db1, .ok 303)
  | (db1, .error e) => (db1, .error e)

/--
GET /admin (src/main.py, `admin_page`): compares the `key` query parameter
(FastAPI default `""` when absent) against `ADMIN_KEY`; on mismatch returns
status 401, otherwise status 200 with the 50 most recent leads (descending
id, i.e. reverse insertion order).  Returns (store, status, listed rows).
-/
def admin_page (adminKey : String) (key : String) (db : DB) :
    DB × Nat × List Lead :=
  if key ≠ adminKey then (db, 401, [])
  else (db, 200, (db.leads.reverse).take 50)

/-- A character forcing CSV quoting under Python's csv QUOTE_MINIMAL
dialect: the delimiter, the quotechar, or a line-terminator character. -/
def specialChar (c : Char) : Bool :=
  c = ',' || c = '"' || c = '\r' || c = '\n'

/-- Doubling of quote characters inside a quoted CSV field. -/
def escQuotes : List Char → List Char
  | [] => []
  | c :: t => if c = '"' then '"' :: '"' :: escQuotes t else c :: escQuotes t

/-- Inverse of `escQuotes`: undo the doubling of quote characters. -/
def unescQuotes : List Char → List Char
  | [] => []
  | [c] => [c]
  | c :: d :: t =>
    if c = '"' ∧ d = '"' then '"' :: unescQuotes t
    else c :: unescQuotes (d :: t)

/-- Whether the csv writer must quote this field (QUOTE_MINIMAL). -/
def needsQuote (s : String) : Bool :=
  s.data.any specialChar

/-- One CSV field as written by Python's `csv.writer`: quoted with internal
quotes doubled when it contains a special character, verbatim otherwise. -/
def csvField (s : String) : String :=
  if needsQuote s then ⟨'"' :: (escQuotes s.data ++ ['"'])⟩ else s

/-- Reading one encoded CSV field back: strip the surrounding quotes and
undo the doubling when the field is quoted, identity otherwise. -/
def decodeField (s : String) : String :=
  if s.data.head? = some '"' then ⟨unescQuotes (s.data.tail.dropLast)⟩ else s

/-- One CSV record as written by `csv.writer.writerow`: the encoded fields
joined by the delimiter, terminated by CRLF. -/
def csvRow (fields : List String) : String :=
  String.intercalate "," (fields.map csvField) ++ "\r\n"

/-- The header row written by `export_csv`, fixing the column order. -/
def csvHeader : List String :=
  ["id", "created_at", "source", "name", "email", "message"]

/-- The field values written for one lead, in the fixed column order
id, created_at, source, name, email, message. -/
def leadFields (l : Lead) : List String :=
  [toString l.id, toString l.created_at, l.source, l.name, l.email, l.message]

/-- The CSV record written for one lead. -/
def leadCsvRow (l : Lead) : String :=
  csvRow (leadFields l)

/-- Outcome of GET /export.csv: 401, or the full CSV body. -/
inductive ExportResult
  | unauthorized
  | csv (body : String)
  deriving DecidableEq, Repr

/-- HTTP status code of an export outcome. -/
def ExportResult.status : ExportResult → Nat
  | .unauthorized => 401
  | .csv _ => 200

/--
GET /export.csv (src/main.py, `export_csv`): the `x-admin-key` header
(absent modelled as `none`; Python's `None != ADMIN_KEY` is true for every
string `ADMIN_KEY`) must equal `ADMIN_KEY`, else 401.  On success, writes
the header row then one row per lead in descending id order (reverse
insertion order) and returns the whole body.
-/
def export_csv (adminKey : String) (xAdminKey : Option String) (db : DB) :
    DB × ExportResult :=
  if xAdminKey ≠ some adminKey then (db, .unauthorized)
  else
    (db, .csv (csvRow csvHeader ++ String.join ((db.leads.reverse).map leadCsvRow)))

/-- GET /health (src/main.py, `health_check`): constant body. -/
def health_check : String :=
  "ok"

/-! ### Helper lemmas about the store -/

theorem maxId_cons (a : Lead) (t : List Lead) :
    maxId (a :: t) = max a.id (maxId t) :=
  rfl

theorem le_maxId_of_mem {l : Lead} {ls : List Lead} (h : l ∈ ls) :
    l.id ≤ maxId ls := by
  induction ls with
  | nil => cases h
  | cons a t ih =>
    rcases List.mem_cons.mp h with h1 | h2
    · subst h1; exact Nat.le_max_left _ _
    · exact Nat.le_trans (ih h2) (Nat.le_max_right _ _)

theorem foldr_max_eq (xs : List Lead) (b : Nat) :
    xs.foldr (fun l m => max l.id m) b = max (maxId xs) b := by
  induction xs with
  | nil => simp [maxId]
  | cons a t ih => simp [maxId, ih, Nat.max_assoc]

theorem maxId_append (xs ys : List Lead) :
    maxId (xs ++ ys) = max (maxId xs) (maxId ys) := by
  have h : maxId (xs ++ ys) = xs.foldr (fun l m => max l.id m) (maxId ys) := by
    simp [maxId, List.foldr_append]
  rw [h, foldr_max_eq]

theorem maxId_singleton (r : Lead) : maxId [r] = r.id := by
  simp [maxId]

theorem insertRow_fst (db : DB) (now : Nat) (n e m s : String) (p : Bool)
    (sid : Option String) (pa : Option Nat) :
    (db.insertRow now n e m s p sid pa).1.leads =
      db.leads ++ [⟨maxId db.leads + 1, now, s, n, e, m, p, sid, pa⟩] :=
  rfl

theorem insertRow_snd (db : DB) (now : Nat) (n e m s : String) (p : Bool)
    (sid : Option String) (pa : Option Nat) :
    (db.insertRow now n e m s p sid pa).2 =
      ⟨maxId db.leads + 1, now, s, n, e, m, p, sid, pa⟩ :=
  rfl

theorem maxId_after_insert (db : DB) (now : Nat) (n e m s : String) (p : Bool)
    (sid : Option String) (pa : Option Nat) :
    maxId (db.insertRow now n e m s p sid pa).1.leads = maxId db.leads + 1 := by
  rw [insertRow_fst, maxId_append, maxId_singleton]
  exact Nat.max_eq_right (Nat.le_succ _)

/-! ### Helper lemmas about the CSV encoding -/

theorem unescQuotes_escQuotes (l : List Char) :
    unescQuotes (escQuotes l) = l := by
  induction l with
  | nil => rfl
  | cons c t ih =>
    by_cases hc : c = '"'
    · subst hc
      simp [escQuotes, unescQuotes, ih]
    · rw [escQuotes, if_neg hc]
      cases he : escQuotes t with
      | nil =>
        cases t with
        | nil => simp [unescQuotes]
        | cons a s =>
          exfalso
          rw [escQuotes] at he
          by_cases ha : a = '"' <;> simp [ha] at he
      | cons d u =>
        rw [unescQuotes, if_neg (fun hcd => hc hcd.1), ← he, ih]

theorem decodeField_quoted (y : List Char) :
    decodeField ⟨'"' :: y⟩ = ⟨unescQuotes y.dropLast⟩ :=
  rfl

theorem decodeField_csvField (s : String) :
    decodeField (csvField s) = s := by
  unfold csvField
  by_cases h : needsQuote s = true
  · rw [if_pos h, decodeField_quoted, List.dropLast_concat, unescQuotes_escQuotes]
  · rw [if_neg h]
    unfold decodeField
    rw [if_neg]
    intro hq
    apply h
    cases hd : s.data with
    | nil => rw [hd] at hq; simp at hq
    | cons c t =>
      rw [hd] at hq
      simp at hq
      rw [needsQuote, hd, List.any_cons, hq]
      simp [specialChar]

/-! ### Helper lemmas about the session-id constraint -/

theorem sessionUsed_append (xs ys : List Lead) (sid : String) :
    sessionUsed (xs ++ ys) sid = (sessionUsed xs sid || sessionUsed ys sid) := by
  simp [sessionUsed, List.any_append]

theorem leadsWithSession_append (xs ys : List Lead) (sid : String) :
    leadsWithSession (xs ++ ys) sid =
      leadsWithSession xs sid ++ leadsWithSession ys sid := by
  simp [leadsWithSession, List.filter_append]

theorem leadsWithSession_eq_nil {ls : List Lead} {sid : String}
    (h : sessionUsed ls sid = false) : leadsWithSession ls sid = [] := by
  rw [sessionUsed, List.any_eq_false] at h
  rw [leadsWithSession, List.filter_eq_nil_iff]
  exact h

/-! ### Helper lemmas about submission -/

theorem submit_ok_eq (now : Nat) (name email message : String)
    (w : Option String) (db : DB) (hw : w.getD "" = "")
    (hn : 2 ≤ (pyStrip name).length) (hm : 10 ≤ (pyStrip message).length) :
    submit_lead_api now name email message w db =
      ((db.insertRow now (pyStrip name) (pyStrip email) (pyStrip message)
          "web" false none none).1,
        .ok ⟨true, maxId db.leads + 1⟩) := by
  unfold submit_lead_api
  rw [hw]
  simp [Nat.not_lt.mpr hn, Nat.not_lt.mpr hm, insertRow_snd]

theorem submit_error_inv (now : Nat) (name email message : String)
    (w : Option String) (db : DB) (e : SubmitError) :
    (submit_lead_api now name email message w db).2 = .error e →
    (submit_lead_api now name email message w db).1 = db := by
  unfold submit_lead_api
  split
  · intro _; rfl
  · split
    · intro _; rfl
    · split
      · intro _; rfl
      · intro h; simp at h

theorem submit_ok_inv (now : Nat) (name email message : String)
    (w : Option String) (db db1 : DB) (o : SubmitOk) :
    submit_lead_api now name email message w db = (db1, .ok o) →
    o.id = maxId db.leads + 1 ∧ maxId db1.leads = maxId db.leads + 1 := by
  unfold submit_lead_api
  split
  · intro h; simp at h
  · split
    · intro h; simp at h
    · split
      · intro h; simp at h
      · intro h
        rw [Prod.mk.injEq] at h
        obtain ⟨h1, h2⟩ := h
        have ho : (⟨true, maxId db.leads + 1⟩ : SubmitOk) = o := by
          simpa [insertRow_snd] using h2
        constructor
        · rw [← ho]
        · rw [← h1, maxId_after_insert]

theorem submit_leads_prefix (now : Nat) (n e m : String) (w : Option String)
    (db : DB) :
    db.leads <+: (submit_lead_api now n e m w db).1.leads := by
  unfold submit_lead_api
  split
  · exact List.prefix_refl _
  · split
    · exact List.prefix_refl _
    · split
      · exact List.prefix_refl _
      · exact List.prefix_append _ _

/-! ### Claim theorems -/

/--
C1, counterexample: the claim states that when no admin secret is
configured, a request presenting the empty string as the key is
unauthorized.  In the code `ADMIN_KEY = os.getenv("ADMIN_KEY", "")` makes
the configured secret the empty string, and both gates test plain
equality, so the empty-string key is accepted: GET /admin with `key=""`
and GET /export.csv with header `""` both return 200, not 401.
-/
theorem C1_counterexample :
    (admin_page "" "" ⟨[]⟩).2.1 = 200 ∧
    (export_csv "" (some "") ⟨[]⟩).2.status = 200 :=
  ⟨rfl, rfl⟩

/--
C1, amended: for every provided key not equal to the configured admin
secret, GET /admin (key via query parameter) and GET /export.csv (key via
x-admin-key header, an absent header never matching) return 401
Unauthorized; but when no secret is configured the empty-string key equals
the configured (empty) secret and is authorized with status 200.
-/
theorem C1_access_gate (adminKey key : String) (xk : Option String)
    (db : DB) (hk : key ≠ adminKey) (hx : xk ≠ some adminKey) :
    (admin_page adminKey key db).2.1 = 401 ∧
    (export_csv adminKey xk db).2.status = 401 ∧
    (admin_page "" "" db).2.1 = 200 ∧
    (export_csv "" (some "") db).2.status = 200 := by
  refine ⟨?_, ?_, ?_, ?_⟩
  · rw [admin_page, if_pos hk]
  · rw [export_csv, if_pos hx]; rfl
  · rw [admin_page, if_neg (by simp)]
  · rw [export_csv, if_neg (by simp)]; rfl

/-- Concrete instance of `C1_access_gate`: secret "secret", wrong key
"wrong", absent export header, empty store. -/
theorem C1_access_gate_witness :
    (admin_page "secret" "wrong" (⟨[]⟩ : DB)).2.1 = 401 ∧
    (export_csv "secret" none (⟨[]⟩ : DB)).2.status = 401 ∧
    (admin_page "" "" (⟨[]⟩ : DB)).2.1 = 200 ∧
    (export_csv "" (some "") (⟨[]⟩ : DB)).2.status = 200 :=
  C1_access_gate "secret" "wrong" none ⟨[]⟩ (by decide) (by decide)

/--
C2: every submission to POST /submit whose honeypot field `website` is
non-empty is rejected with the 400 "Invalid submission" error, regardless
of the other fields, and no lead is created (the store is returned
unchanged).
-/
theorem C2_honeypot_rejected (now : Nat) (name email message w : String)
    (db : DB) (hw : w ≠ "") :
    submit_lead_api now name email message (some w) db =
      (db, .error .invalidSubmission) ∧
    SubmitError.invalidSubmission.status = 400 := by
  refine ⟨?_, rfl⟩
  simp [submit_lead_api, hw]

/-- Concrete instance of `C2_honeypot_rejected`: otherwise-valid fields
with honeypot value "spam" are rejected and the empty store is unchanged. -/
theorem C2_honeypot_rejected_witness :
    submit_lead_api 0 "Jo" "jo@x.com" "Hello there!" (some "spam") ⟨[]⟩ =
      ((⟨[]⟩ : DB), .error .invalidSubmission) ∧
    SubmitError.invalidSubmission.status = 400 :=
  C2_honeypot_rejected 0 "Jo" "jo@x.com" "Hello there!" "spam" ⟨[]⟩ (by decide)

/--
C10: error atomicity of POST /submit: whenever the handler returns an
error (honeypot, short name, or short message), the store after the call
equals the store before the call — no row is inserted — and the error
carries status 400.
-/
theorem C10_error_atomicity (now : Nat) (name email message : String)
    (w : Option String) (db : DB) (e : SubmitError)
    (h : (submit_lead_api now name email message w db).2 = .error e) :
    (submit_lead_api now name email message w db).1 = db ∧ e.status = 400 :=
  ⟨submit_error_inv now name email message w db e h, rfl⟩

/-- Concrete instance of `C10_error_atomicity`: a honeypot-rejected
submission leaves the empty store empty. -/
theorem C10_error_atomicity_witness :
    (submit_lead_api 0 "Jo" "j@x.com" "Hello there!" (some "bot") ⟨[]⟩).1 =
      (⟨[]⟩ : DB) ∧
    SubmitError.invalidSubmission.status = 400 :=
  C10_error_atomicity 0 "Jo" "j@x.com" "Hello there!" (some "bot") ⟨[]⟩
    .invalidSubmission rfl

/--
C3: each payment session backs at most one stored lead: after a
successful paid insert with a given `stripe_session_id`, the inserted row
carries that id, a second insert with the same id is rejected by the
store's uniqueness check with a conflict, and the at-most-one-row-per-id
invariant of the table is preserved.
-/
theorem C3_session_id_unique (db db1 : DB) (r1 : Lead) (now now2 : Nat)
    (n e m n2 e2 m2 sid : String)
    (h : db.insertPaid now n e m sid = .ok (db1, r1)) :
    db1.insertPaid now2 n2 e2 m2 sid = .error .conflict ∧
    r1.stripe_session_id = some sid ∧
    (∀ sid2 : String, (leadsWithSession db.leads sid2).length ≤ 1 →
      (leadsWithSession db1.leads sid2).length ≤ 1) := by
  unfold DB.insertPaid at h
  by_cases hs : sessionUsed db.leads sid = true
  · rw [if_pos hs] at h
    simp at h
  · have hsf : sessionUsed db.leads sid = false := by
      simpa using hs
    rw [if_neg hs] at h
    have h2 : db.insertRow now n e m "web_paid" true (some sid) (some now) =
        (db1, r1) := by
      simpa using h
    rw [Prod.ext_iff] at h2
    obtain ⟨hdb1, hr1⟩ := h2
    subst hdb1
    subst hr1
    refine ⟨?_, ?_, ?_⟩
    · have hc : sessionUsed
          (db.insertRow now n e m "web_paid" true (some sid) (some now)).1.leads
          sid = true := by
        rw [insertRow_fst, sessionUsed_append]
        simp [sessionUsed]
      rw [DB.insertPaid, if_pos hc]
    · rw [insertRow_snd]
    · intro sid2 hlen
      rw [insertRow_fst, leadsWithSession_append, List.length_append]
      by_cases hss : sid2 = sid
      · subst hss
        rw [leadsWithSession_eq_nil hsf]
        simp [leadsWithSession]
      · have hz : leadsWithSession
            [⟨maxId db.leads + 1, now, "web_paid", n, e, m, true, some sid,
              some now⟩] sid2 = [] := by
          simp [leadsWithSession]
          intro hcontra
          exact hss hcontra.symm
        rw [hz]
        simpa using hlen

/-- Concrete instance of `C3_session_id_unique`: the first paid insert for
session "cs_123" succeeds on the empty store; re-inserting with the same
session id conflicts. -/
theorem C3_session_id_unique_witness :
    (DB.mk [⟨1, 7, "web_paid", "Ann", "a@x.com", "Need help", true,
        some "cs_123", some 7⟩]).insertPaid 8 "Bob" "b@x.com" "Try again"
        "cs_123" = .error .conflict ∧
    (Lead.mk 1 7 "web_paid" "Ann" "a@x.com" "Need help" true
        (some "cs_123") (some 7)).stripe_session_id = some "cs_123" ∧
    (∀ sid2 : String,
      (leadsWithSession (DB.mk []).leads sid2).length ≤ 1 →
      (leadsWithSession (DB.mk [⟨1, 7, "web_paid", "Ann", "a@x.com",
          "Need help", true, some "cs_123", some 7⟩]).leads sid2).length ≤ 1) :=
  C3_session_id_unique ⟨[]⟩
    ⟨[⟨1, 7, "web_paid", "Ann", "a@x.com", "Need help", true, some "cs_123",
      some 7⟩]⟩
    ⟨1, 7, "web_paid", "Ann", "a@x.com", "Need help", true, some "cs_123",
      some 7⟩
    7 8 "Ann" "a@x.com" "Need help" "Bob" "b@x.com" "Try again" "cs_123" rfl

/--
C4: identifiers are assigned monotonically by the store: a second insert
(any flow goes through `DB.insertRow`) receives a strictly greater id than
the first, every new id exceeds every id already in the table,
id-uniqueness of the table is preserved, and two successful POST /submit
calls in sequence return strictly increasing ids.
-/
theorem C4_ids_monotone (db : DB) (now1 now2 : Nat)
    (n1 e1 m1 s1 n2 e2 m2 s2 : String) (p1 p2 : Bool)
    (sid1 sid2 : Option String) (pa1 pa2 : Option Nat) :
    (db.insertRow now1 n1 e1 m1 s1 p1 sid1 pa1).2.id <
      ((db.insertRow now1 n1 e1 m1 s1 p1 sid1 pa1).1.insertRow now2 n2 e2 m2
        s2 p2 sid2 pa2).2.id ∧
    (∀ l ∈ db.leads, l.id < (db.insertRow now1 n1 e1 m1 s1 p1 sid1 pa1).2.id) ∧
    ((db.leads.map Lead.id).Nodup →
      ((db.insertRow now1 n1 e1 m1 s1 p1 sid1 pa1).1.leads.map Lead.id).Nodup) ∧
    (∀ (dbA dbB dbC : DB) (oA oB : SubmitOk) (nowA nowB : Nat)
        (nA eA mA nB eB mB : String) (wA wB : Option String),
      submit_lead_api nowA nA eA mA wA dbA = (dbB, .ok oA) →
      submit_lead_api nowB nB eB mB wB dbB = (dbC, .ok oB) →
      oA.id < oB.id) := by
  refine ⟨?_, ?_, ?_, ?_⟩
  · rw [insertRow_snd, insertRow_snd]
    simp [maxId_after_insert]
  · intro l hl
    rw [insertRow_snd]
    exact Nat.lt_succ_of_le (le_maxId_of_mem hl)
  · intro hnd
    rw [insertRow_fst, List.map_append]
    rw [List.nodup_append]
    refine ⟨hnd, List.nodup_singleton _, ?_⟩
    intro a ha hb
    simp at hb
    rcases List.mem_map.mp ha with ⟨l, hl, hid⟩
    have := le_maxId_of_mem hl
    omega
  · intro dbA dbB dbC oA oB nowA nowB nA eA mA nB eB mB wA wB hA hB
    obtain ⟨hA1, hA2⟩ := submit_ok_inv nowA nA eA mA wA dbA dbB oA hA
    obtain ⟨hB1, _⟩ := submit_ok_inv nowB nB eB mB wB dbB dbC oB hB
    omega

/-- Concrete instance of `C4_ids_monotone`: on a one-row store the next
insert gets id 2 and the one after id 3; ids stay unique; two successful
free-flow submissions on the empty store return ids 1 then 2. -/
theorem C4_ids_monotone_witness :
    ((DB.mk [⟨1, 0, "web", "Jo", "j@x.com", "Hi there all!", false, none,
        none⟩]).insertRow 4 "A" "B" "C" "web" false none none).2.id <
      (((DB.mk [⟨1, 0, "web", "Jo", "j@x.com", "Hi there all!", false, none,
        none⟩]).insertRow 4 "A" "B" "C" "web" false none
        none).1.insertRow 5 "D" "E" "F" "web" false none none).2.id ∧
    (⟨1, 0, "web", "Jo", "j@x.com", "Hi there all!", false, none, none⟩ : Lead).id <
      ((DB.mk [⟨1, 0, "web", "Jo", "j@x.com", "Hi there all!", false, none,
        none⟩]).insertRow 4 "A" "B" "C" "web" false none none).2.id ∧
    (((DB.mk [⟨1, 0, "web", "Jo", "j@x.com", "Hi there all!", false, none,
        none⟩]).insertRow 4 "A" "B" "C" "web" false none
        none).1.leads.map Lead.id).Nodup ∧
    (1 : Nat) < 2 := by
  have h := C4_ids_monotone
    (DB.mk [⟨1, 0, "web", "Jo", "j@x.com", "Hi there all!", false, none,
      none⟩]) 4 5 "A" "B" "C" "web" "D" "E" "F" "web" false false none none
    none none
  refine ⟨h.1, h.2.1 _ (by decide), h.2.2.1 (by decide), ?_⟩
  have h2 := h.2.2.2 ⟨[]⟩
    ⟨[⟨1, 0, "web", "Jo", "jo@x.com", "Hello there!", false, none, none⟩]⟩
    ⟨[⟨1, 0, "web", "Jo", "jo@x.com", "Hello there!", false, none, none⟩,
      ⟨2, 0, "web", "Al", "al@x.com", "Hello again!", false, none, none⟩]⟩
    ⟨true, 1⟩ ⟨true, 2⟩ 0 0 "Jo" "jo@x.com" "Hello there!" "Al" "al@x.com"
    "Hello again!" none none rfl rfl
  exact h2

/--
C5: with the correct admin key, GET /export.csv emits the header row
followed by one CSV record per stored lead (descending id order); every
stored lead has its record present, the record's fields are exactly the
stored values in the fixed column order id, created_at, source, name,
email, message, and the CSV field encoding is lossless: decoding each
written field returns the stored string verbatim.
-/
theorem C5_csv_roundtrip (adminKey : String) (db : DB) (l : Lead)
    (hl : l ∈ db.leads) :
    (export_csv adminKey (some adminKey) db).2 =
      .csv (csvRow csvHeader ++
        String.join ((db.leads.reverse).map leadCsvRow)) ∧
    leadCsvRow l ∈ (db.leads.reverse).map leadCsvRow ∧
    leadCsvRow l = csvRow [toString l.id, toString l.created_at, l.source,
      l.name, l.email, l.message] ∧
    (leadFields l).map (fun f => decodeField (csvField f)) = leadFields l ∧
    csvHeader = ["id", "created_at", "source", "name", "email", "message"] := by
  refine ⟨?_, ?_, rfl, ?_, rfl⟩
  · rw [export_csv, if_neg (by simp)]
  · exact List.mem_map_of_mem _ (List.mem_reverse.mpr hl)
  · simp [decodeField_csvField]

/-- Concrete instance of `C5_csv_roundtrip`: a store holding one lead whose
fields contain a comma, quotes and a newline; its record appears in the
export and decodes back to the stored values verbatim. -/
theorem C5_csv_roundtrip_witness :
    (export_csv "k" (some "k")
        ⟨[⟨1, 5, "web", "Ann, \"A\"", "a@x.com", "line1\nline2", false, none,
          none⟩]⟩).2 =
      .csv (csvRow csvHeader ++
        String.join (((DB.mk [⟨1, 5, "web", "Ann, \"A\"", "a@x.com",
          "line1\nline2", false, none, none⟩]).leads.reverse).map leadCsvRow)) ∧
    leadCsvRow ⟨1, 5, "web", "Ann, \"A\"", "a@x.com", "line1\nline2", false,
        none, none⟩ ∈
      ((DB.mk [⟨1, 5, "web", "Ann, \"A\"", "a@x.com", "line1\nline2", false,
        none, none⟩]).leads.reverse).map leadCsvRow ∧
    leadCsvRow ⟨1, 5, "web", "Ann, \"A\"", "a@x.com", "line1\nline2", false,
        none, none⟩ =
      csvRow [toString (1 : Nat), toString (5 : Nat), "web", "Ann, \"A\"",
        "a@x.com", "line1\nline2"] ∧
    (leadFields ⟨1, 5, "web", "Ann, \"A\"", "a@x.com", "line1\nline2", false,
        none, none⟩).map (fun f => decodeField (csvField f)) =
      leadFields ⟨1, 5, "web", "Ann, \"A\"", "a@x.com", "line1\nline2", false,
        none, none⟩ ∧
    csvHeader = ["id", "created_at", "source", "name", "email", "message"] :=
  C5_csv_roundtrip "k"
    ⟨[⟨1, 5, "web", "Ann, \"A\"", "a@x.com", "line1\nline2", false, none,
      none⟩]⟩
    ⟨1, 5, "web", "Ann, \"A\"", "a@x.com", "line1\nline2", false, none, none⟩
    (by decide)

/--
C6: with an empty honeypot, a submission whose stripped name is shorter
than 2 characters is rejected with the 400 "Name too short" error and the
store is unchanged; a stripped name of length exactly 2 with otherwise
valid fields succeeds.
-/
theorem C6_name_boundary (now : Nat) (name email message : String)
    (w : Option String) (db : DB) (hw : w.getD "" = "")
    (hn : (pyStrip name).length < 2) :
    submit_lead_api now name email message w db =
      (db, .error .nameTooShort) ∧
    SubmitError.nameTooShort.status = 400 ∧
    (∀ (now2 : Nat) (n2 e2 m2 : String) (w2 : Option String) (db2 : DB),
      w2.getD "" = "" → (pyStrip n2).length = 2 →
      10 ≤ (pyStrip m2).length →
      ∃ o : SubmitOk, (submit_lead_api now2 n2 e2 m2 w2 db2).2 = .ok o) := by
  refine ⟨?_, rfl, ?_⟩
  · simp [submit_lead_api, hw, hn]
  · intro now2 n2 e2 m2 w2 db2 hw2 hn2 hm2
    rw [submit_ok_eq now2 n2 e2 m2 w2 db2 hw2 (by omega) hm2]
    exact ⟨_, rfl⟩

/-- Concrete instance of `C6_name_boundary`: name "J" (stripped length 1)
is rejected; name "Jo" (stripped length 2) with a valid message succeeds. -/
theorem C6_name_boundary_witness :
    submit_lead_api 0 "J" "j@x.com" "Hello there!" none ⟨[]⟩ =
      ((⟨[]⟩ : DB), .error .nameTooShort) ∧
    (∃ o : SubmitOk,
      (submit_lead_api 0 "Jo" "jo@x.com" "Hello there!" none
        (⟨[]⟩ : DB)).2 = .ok o) :=
  ⟨(C6_name_boundary 0 "J" "j@x.com" "Hello there!" none ⟨[]⟩ rfl
      (by decide)).1,
   (C6_name_boundary 0 "J" "j@x.com" "Hello there!" none ⟨[]⟩ rfl
      (by decide)).2.2 0 "Jo" "jo@x.com" "Hello there!" none ⟨[]⟩ rfl
      (by decide) (by decide)⟩

/--
C7: with an empty honeypot and a valid name, a submission whose stripped
message is shorter than 10 characters is rejected with the 400 "Message
too short" error and the store is unchanged; a stripped message of length
exactly 10 succeeds.
-/
theorem C7_message_boundary (now : Nat) (name email message : String)
    (w : Option String) (db : DB) (hw : w.getD "" = "")
    (hn : 2 ≤ (pyStrip name).length)
    (hm : (pyStrip message).length < 10) :
    submit_lead_api now name email message w db =
      (db, .error .messageTooShort) ∧
    SubmitError.messageTooShort.status = 400 ∧
    (∀ (now2 : Nat) (n2 e2 m2 : String) (w2 : Option String) (db2 : DB),
      w2.getD "" = "" → 2 ≤ (pyStrip n2).length →
      (pyStrip m2).length = 10 →
      ∃ o : SubmitOk, (submit_lead_api now2 n2 e2 m2 w2 db2).2 = .ok o) := by
  refine ⟨?_, rfl, ?_⟩
  · simp [submit_lead_api, hw, Nat.not_lt.mpr hn, hm]
  · intro now2 n2 e2 m2 w2 db2 hw2 hn2 hm2
    rw [submit_ok_eq now2 n2 e2 m2 w2 db2 hw2 hn2 (by omega)]
    exact ⟨_, rfl⟩

/-- Concrete instance of `C7_message_boundary`: message "short msg"
(stripped length 9) is rejected; a 10-character message succeeds. -/
theorem C7_message_boundary_witness :
    submit_lead_api 0 "Jo" "j@x.com" "short msg" none ⟨[]⟩ =
      ((⟨[]⟩ : DB), .error .messageTooShort) ∧
    (∃ o : SubmitOk,
      (submit_lead_api 0 "Jo" "jo@x.com" "ten chars." none
        (⟨[]⟩ : DB)).2 = .ok o) :=
  ⟨(C7_message_boundary 0 "Jo" "j@x.com" "short msg" none ⟨[]⟩ rfl
      (by decide) (by decide)).1,
   (C7_message_boundary 0 "Jo" "j@x.com" "short msg" none ⟨[]⟩ rfl
      (by decide) (by decide)).2.2 0 "Jo" "jo@x.com" "ten chars." none ⟨[]⟩
      rfl (by decide) (by decide)⟩

/--
C8: a valid free-flow submission (empty honeypot, stripped name length at
least 2, stripped message length at least 10) appends exactly one lead to
the store, whose name, email and message are the stripped inputs, with
source "web" and paid false, and returns the success body with saved=true
and the new row's id.
-/
theorem C8_free_flow (now : Nat) (name email message : String)
    (w : Option String) (db : DB) (hw : w.getD "" = "")
    (hn : 2 ≤ (pyStrip name).length) (hm : 10 ≤ (pyStrip message).length) :
    ∃ row : Lead,
      submit_lead_api now name email message w db =
        (⟨db.leads ++ [row]⟩, .ok ⟨true, row.id⟩) ∧
      row.name = pyStrip name ∧ row.email = pyStrip email ∧
      row.message = pyStrip message ∧ row.source = "web" ∧
      row.paid = false ∧ row.id = maxId db.leads + 1 := by
  refine ⟨⟨maxId db.leads + 1, now, "web", pyStrip name, pyStrip email,
    pyStrip message, false, none, none⟩, ?_, rfl, rfl, rfl, rfl, rfl, rfl⟩
  rw [submit_ok_eq now name email message w db hw hn hm]
  rfl

/-- Concrete instance of `C8_free_flow`: submitting padded fields stores
their stripped values with source "web" and returns id 1. -/
theorem C8_free_flow_witness :
    ∃ row : Lead,
      submit_lead_api 3 " Jo " " jo@x.com " " Hello there! " (some "")
          ⟨[]⟩ =
        (⟨(DB.mk []).leads ++ [row]⟩, .ok ⟨true, row.id⟩) ∧
      row.name = pyStrip " Jo " ∧ row.email = pyStrip " jo@x.com " ∧
      row.message = pyStrip " Hello there! " ∧ row.source = "web" ∧
      row.paid = false ∧ row.id = maxId (DB.mk []).leads + 1 :=
  C8_free_flow 3 " Jo " " jo@x.com " " Hello there! " (some "") ⟨[]⟩ rfl
    (by decide) (by decide)

/--
C9: the store is append-only: the admin page and the CSV export return the
store unchanged, each submission handler's resulting store has the prior
rows as a prefix (it either changes nothing or appends), and a successful
paid insert likewise only appends; no row is ever updated or deleted.
-/
theorem C9_append_only :
    (∀ (aK k : String) (db : DB), (admin_page aK k db).1 = db) ∧
    (∀ (aK : String) (xk : Option String) (db : DB),
      (export_csv aK xk db).1 = db) ∧
    (∀ (now : Nat) (n e m : String) (w : Option String) (db : DB),
      db.leads <+: (submit_lead_api now n e m w db).1.leads) ∧
    (∀ (now : Nat) (n e m w : String) (db : DB),
      db.leads <+: (submit_lead_form now n e m w db).1.leads) ∧
    (∀ (db : DB) (now : Nat) (n e m sid : String) (r : DB × Lead),
      db.insertPaid now n e m sid = .ok r → db.leads <+: r.1.leads) := by
  refine ⟨?_, ?_, ?_, ?_, ?_⟩
  · intro aK k db
    unfold admin_page
    split <;> rfl
  · intro aK xk db
    unfold export_csv
    split <;> rfl
  · intro now n e m w db
    exact submit_leads_prefix now n e m w db
  · intro now n e m w db
    have hp := submit_leads_prefix now n e m (some w) db
    unfold submit_lead_form
    cases hr : submit_lead_api now n e m (some w) db with
    | mk db1 res =>
      rw [hr] at hp
      cases res <;> simpa using hp
  · intro db now n e m sid r
    unfold DB.insertPaid
    split
    · intro h
      simp at h
    · intro h
      have h2 : db.insertRow now n e m "web_paid" true (some sid)
          (some now) = r := by
        simpa using h
      rw [← h2, insertRow_fst]
      exact List.prefix_append _ _

/-- Concrete instance of `C9_append_only`: the admin page leaves a one-row
store unchanged, and a successful paid insert only appends to the empty
store. -/
theorem C9_append_only_witness :
    (admin_page "k" "bad"
        ⟨[⟨1, 0, "web", "Jo", "j@x.com", "Hi there all!", false, none,
          none⟩]⟩).1 =
      (⟨[⟨1, 0, "web", "Jo", "j@x.com", "Hi there all!", false, none,
        none⟩]⟩ : DB) ∧
    (DB.mk []).leads <+:
      (DB.mk [⟨1, 1, "web_paid", "A", "B", "C", true, some "s",
        some 1⟩]).leads :=
  ⟨C9_append_only.1 "k" "bad"
      ⟨[⟨1, 0, "web", "Jo", "j@x.com", "Hi there all!", false, none, none⟩]⟩,
   C9_append_only.2.2.2.2 ⟨[]⟩ 1 "A" "B" "C" "s"
      (⟨[⟨1, 1, "web_paid", "A", "B", "C", true, some "s", some 1⟩]⟩,
        ⟨1, 1, "web_paid", "A", "B", "C", true, some "s", some 1⟩) rfl⟩

end LeadIntake
